import Mathlib

/-!
Verification development for the batch-geocoding program
(geocoding_script.py): a shallow embedding of its cache store,
rate-limited retry client, address formatter and orchestrator,
with theorems about the properties the design document states.

Modelling conventions:
- Python floats (coordinates, clock readings, delays) are modelled as
  rationals; no rounding behaviour of the program is relevant here.
- The md5 fingerprint of the cache is an external library call; the
  embedding is parameterised by an arbitrary function
  md5hex : String → String applied to the normalised query.
- Wall-clock timestamps (datetime.now().isoformat()) are passed in as
  explicit string arguments; time.time() readings are explicit rational
  arguments, and time.sleep of s units advances the clock by exactly s.
- The durable cache file is modelled by the persisted field of the cache
  state together with a counter of successful writes; json.dump may raise
  IOError, modelled by a boolean saveOk input per write attempt.
- The external geocoder (geopy Nominatim) is an oracle
  resp : Nat → AttemptOutcome giving the outcome of the n-th attempt.
-/

namespace Geocoding

/-- Python str.strip(): remove leading and trailing whitespace. Defined on
the character list so that it computes by structural recursion. -/
def pyStrip (s : String) : String :=
  ⟨(((s.data.dropWhile Char.isWhitespace).reverse).dropWhile Char.isWhitespace).reverse⟩

/-- Python str.lower() (ASCII case mapping suffices here). -/
def pyLower (s : String) : String :=
  ⟨s.data.map Char.toLower⟩

/-- Python str.upper() (ASCII case mapping suffices here). -/
def pyUpper (s : String) : String :=
  ⟨s.data.map Char.toUpper⟩

/-- GeocodeResult dataclass of the source: optional coordinates, optional
formatted address, cached flag, optional ISO timestamp, optional error. -/
structure GeocodeResult where
  latitude : Option ℚ := none
  longitude : Option ℚ := none
  formatted_address : Option String := none
  cached : Bool := false
  timestamp : Option String := none
  error : Option String := none
deriving Repr, DecidableEq

/-- GeocodingConfig.REQUEST_DELAY: 1.1 seconds between consecutive requests. -/
def REQUEST_DELAY : ℚ := 11 / 10

/-- GeocodingConfig.MAX_RETRIES. -/
def MAX_RETRIES : Nat := 3

/-- GeocodingConfig.RETRY_DELAY: base backoff of 2.0 seconds. -/
def RETRY_DELAY : ℚ := 2

/-- GeocodingConfig.BATCH_SIZE: cache entries between periodic saves. -/
def BATCH_SIZE : Nat := 20

/-- State of GeocodeCache: the in-memory dict cache_data, the dirty
counters, plus a model of the durable file (its current contents and how
many successful writes have happened). -/
structure CacheState where
  cache_data : List (String × GeocodeResult)
  dirty_count : Nat
  is_dirty : Bool
  persisted : List (String × GeocodeResult)
  write_count : Nat
deriving Repr, DecidableEq

namespace GeocodeCache

/-- Constructor of GeocodeCache: cache_data is loaded from the file (or is
empty when the file is absent or unparsable); dirty tracking starts clear. -/
def init (loaded : List (String × GeocodeResult)) : CacheState :=
  { cache_data := loaded, dirty_count := 0, is_dirty := false,
    persisted := loaded, write_count := 0 }

/-- GeocodeCache._save_cache: json.dump of the whole mapping; on success
reset the dirty tracking, on IOError (saveOk = false) log only, leaving the
mapping and the dirty tracking unchanged. -/
def save_cache (saveOk : Bool) (s : CacheState) : CacheState :=
  if saveOk then
    { s with persisted := s.cache_data, write_count := s.write_count + 1,
             dirty_count := 0, is_dirty := false }
  else s

/-- GeocodeCache._generate_cache_key: md5 hexdigest of the lower-cased,
stripped address. -/
def generate_cache_key (md5hex : String → String) (address : String) : String :=
  md5hex (pyStrip (pyLower address))

/-- GeocodeCache.get: look the fingerprint up in cache_data; on a hit
return the stored result with cached forced to true. The method reads the
state and assigns no field, so the state component is returned as is. -/
def get (md5hex : String → String) (address : String) (s : CacheState) :
    Option GeocodeResult × CacheState :=
  let cache_key := generate_cache_key md5hex address
  match s.cache_data.lookup cache_key with
  | some entry => (some { entry with cached := true }, s)
  | none => (none, s)

/-- Overwriting insertion into the modelled dict. -/
def insertEntry (k : String) (v : GeocodeResult) (m : List (String × GeocodeResult)) :
    List (String × GeocodeResult) :=
  (k, v) :: m.filter (fun p => p.1 != k)

/-- GeocodeCache.set: stamp the result with the write time, clear its
cached flag, store it under the fingerprint, bump the dirty tracking, and
save when dirty_count reaches the batch size. Returns the stored result
(the method mutates the caller's result object) and the new state. -/
def set (md5hex : String → String) (batch_size : Nat) (address : String)
    (result : GeocodeResult) (now : String) (saveOk : Bool) (s : CacheState) :
    GeocodeResult × CacheState :=
  let cache_key := generate_cache_key md5hex address
  let stored : GeocodeResult := { result with timestamp := some now, cached := false }
  let s1 : CacheState :=
    { s with cache_data := insertEntry cache_key stored s.cache_data,
             dirty_count := s.dirty_count + 1,
             is_dirty := true }
  if s1.dirty_count ≥ batch_size then (stored, save_cache saveOk s1)
  else (stored, s1)

/-- GeocodeCache.force_save: save when dirty, otherwise do nothing. -/
def force_save (saveOk : Bool) (s : CacheState) : CacheState :=
  if s.is_dirty then save_cache saveOk s else s

end GeocodeCache

/-- Address records are the JSON objects of the input file: string keys to
(stringified) values; dict lookup is first match. -/
abbrev AddressRecord := List (String × String)

/-- Python address_data.get(k): absent keys behave as the falsy empty
string once stringified. -/
def getStr (r : AddressRecord) (k : String) : String :=
  (r.lookup k).getD ""

/-- One field block of _format_address: skip a falsy value, strip it, and
keep it only when non-blank. -/
def trimmedPart (v : String) : List String :=
  if v = "" then []
  else if pyStrip v = "" then []
  else [pyStrip v]

/-- The country block of _format_address: strip then upper-case. -/
def upperPart (v : String) : List String :=
  if v = "" then []
  else if pyUpper (pyStrip v) = "" then []
  else [pyUpper (pyStrip v)]

/-- AddressGeocoder._format_address: join the recognised non-blank parts,
in fixed order, with a comma and space. -/
def format_address (address_data : AddressRecord) : String :=
  let address_parts : List String :=
    trimmedPart (getStr address_data "street_line_1") ++
    trimmedPart (getStr address_data "city") ++
    trimmedPart (getStr address_data "state") ++
    trimmedPart (getStr address_data "zip") ++
    upperPart (getStr address_data "country_code")
  String.intercalate ", " address_parts

/-- Reading of the client clock: current wall time together with the
last_request_time field of AddressGeocoder (0 at construction). -/
structure ClientClock where
  now : ℚ
  last_request_time : ℚ
deriving Repr, DecidableEq

/-- AddressGeocoder._rate_limit: when less than request_delay has elapsed
since last_request_time, sleep the remainder; then record the current time
as last_request_time. Sleeping s units advances the clock by s. -/
def rate_limit (request_delay : ℚ) (c : ClientClock) : ClientClock :=
  let time_since_last_request := c.now - c.last_request_time
  let now2 :=
    if time_since_last_request < request_delay then
      c.now + (request_delay - time_since_last_request)
    else c.now
  { now := now2, last_request_time := now2 }

/-- Trace of externally issued attempts: each event gives the idle time
before the orchestrator reaches _rate_limit again and the duration of the
geocoder.geocode call itself; the output lists (start, finish) times of
the attempts as issued by one client instance. -/
def runAttempts (request_delay : ℚ) (c : ClientClock) :
    List (ℚ × ℚ) → List (ℚ × ℚ)
  | [] => []
  | (idle, dur) :: rest =>
    let c1 := rate_limit request_delay { c with now := c.now + idle }
    let start := c1.now
    let fin := start + dur
    (start, fin) ::
      runAttempts request_delay { now := fin, last_request_time := c1.last_request_time } rest

/-- Outcome of one geocoder.geocode call: a location, a falsy None
(not found), or one of the geopy exception classes the source catches. -/
inductive AttemptOutcome where
  | found (lat lon : ℚ) (addr : String)
  | notFound
  | quotaExceeded
  | timedOut (msg : String)
  | serviceError (msg : String)
  | unexpected (msg : String)
deriving Repr, DecidableEq

/-- Outcomes the source treats as transient (the except clause for
GeocoderTimedOut and GeocoderServiceError). -/
def AttemptOutcome.isTransient : AttemptOutcome → Bool
  | .timedOut _ | .serviceError _ => true
  | _ => false

/-- Outcomes on which geocoder.geocode returns a provider response rather
than raising. -/
def AttemptOutcome.isResponse : AttemptOutcome → Bool
  | .found _ _ _ | .notFound => true
  | _ => false

/-- str(e) for the exception outcomes. -/
def AttemptOutcome.excMsg : AttemptOutcome → String
  | .timedOut m | .serviceError m | .unexpected m => m
  | _ => ""

/-- Observable effect of one _geocode_with_retry call: the returned
result, how many external attempts were issued, the backoff sleeps
performed between attempts (in order), and how often request_count was
incremented. -/
structure RetryRun where
  result : GeocodeResult
  attemptsMade : Nat
  sleeps : List ℚ
  requestCountDelta : Nat
deriving Repr, DecidableEq

/-- Loop body of AddressGeocoder._geocode_with_retry, from loop index
attempt with fuel remaining iterations (range(MAX_RETRIES) leaves
max_retries - attempt of them); falling off the loop yields the final
"Max retries exceeded" result. -/
def retryFrom (max_retries : Nat) (retry_delay : ℚ) (resp : Nat → AttemptOutcome)
    (ts : String) : Nat → Nat → RetryRun
  | _, 0 =>
    { result := { error := some "Max retries exceeded", timestamp := some ts },
      attemptsMade := 0, sleeps := [], requestCountDelta := 0 }
  | attempt, fuel + 1 =>
    match resp attempt with
    | .found lat lon addr =>
      { result := { latitude := some lat, longitude := some lon,
                    formatted_address := some addr, timestamp := some ts },
        attemptsMade := 1, sleeps := [], requestCountDelta := 1 }
    | .notFound =>
      { result := { error := some "Location not found", timestamp := some ts },
        attemptsMade := 1, sleeps := [], requestCountDelta := 1 }
    | .quotaExceeded =>
      { result := { error := some "Quota exceeded", timestamp := some ts },
        attemptsMade := 1, sleeps := [], requestCountDelta := 0 }
    | .timedOut e | .serviceError e =>
      if attempt < max_retries - 1 then
        let r := retryFrom max_retries retry_delay resp ts (attempt + 1) fuel
        { r with attemptsMade := r.attemptsMade + 1,
                 sleeps := retry_delay * ((attempt : ℚ) + 1) :: r.sleeps }
      else
        { result := { error := some ("Failed after " ++ toString max_retries ++
                                     " attempts: " ++ e),
                      timestamp := some ts },
          attemptsMade := 1, sleeps := [], requestCountDelta := 0 }
    | .unexpected e =>
      { result := { error := some ("Unexpected error: " ++ e), timestamp := some ts },
        attemptsMade := 1, sleeps := [], requestCountDelta := 0 }

/-- AddressGeocoder._geocode_with_retry: run the loop from attempt 0. -/
def geocode_with_retry (max_retries : Nat) (retry_delay : ℚ)
    (resp : Nat → AttemptOutcome) (ts : String) : RetryRun :=
  retryFrom max_retries retry_delay resp ts 0 max_retries

/-- Observable effect of one AddressGeocoder.geocode_address call. -/
structure GeoOutcome where
  result : GeocodeResult
  cache : CacheState
  requestCountDelta : Nat
  cacheLookup : Bool
  externalCalled : Bool
  storeCalled : Bool
deriving Repr, DecidableEq

/-- AddressGeocoder.geocode_address: format, reject an empty query, try
the cache, otherwise geocode with retries and cache only an error-free
result. -/
def geocode_address (md5hex : String → String) (batch_size max_retries : Nat)
    (retry_delay : ℚ) (resp : Nat → AttemptOutcome) (ts : String) (saveOk : Bool)
    (address_data : AddressRecord) (s : CacheState) : GeoOutcome :=
  let formatted_address := format_address address_data
  if pyStrip formatted_address = "" then
    { result := { error := some "Empty or invalid address", timestamp := some ts },
      cache := s, requestCountDelta := 0, cacheLookup := false,
      externalCalled := false, storeCalled := false }
  else
    match GeocodeCache.get md5hex formatted_address s with
    | (some cached_result, s1) =>
      { result := cached_result, cache := s1, requestCountDelta := 0,
        cacheLookup := true, externalCalled := false, storeCalled := false }
    | (none, s1) =>
      let run := geocode_with_retry max_retries retry_delay resp ts
      if run.result.error = none then
        let pr := GeocodeCache.set md5hex batch_size formatted_address run.result ts saveOk s1
        { result := pr.1, cache := pr.2, requestCountDelta := run.requestCountDelta,
          cacheLookup := true, externalCalled := true, storeCalled := true }
      else
        { result := run.result, cache := s1, requestCountDelta := run.requestCountDelta,
          cacheLookup := true, externalCalled := true, storeCalled := false }

/-- Record of the output file: the shallow copy of the input record plus
the added geocoding field. -/
structure EnrichedRecord where
  fields : AddressRecord
  geocoding : GeocodeResult
deriving Repr, DecidableEq

/-- Mutable state of AddressGeocoder across a batch. -/
structure GeocoderState where
  cache : CacheState
  request_count : Nat
deriving Repr, DecidableEq

/-- AddressGeocoder.process_addresses: geocode each record in input order,
threading the cache and request counter; record index i selects that
record's external oracle. -/
def process_addresses (md5hex : String → String) (batch_size max_retries : Nat)
    (retry_delay : ℚ) (resps : Nat → Nat → AttemptOutcome) (ts : String)
    (saveOk : Bool) : List AddressRecord → Nat → GeocoderState →
    List EnrichedRecord × GeocoderState
  | [], _, g => ([], g)
  | address_data :: rest, i, g =>
    let o := geocode_address md5hex batch_size max_retries retry_delay
               (resps i) ts saveOk address_data g.cache
    let g1 : GeocoderState :=
      { cache := o.cache, request_count := g.request_count + o.requestCountDelta }
    let pr := process_addresses md5hex batch_size max_retries retry_delay
                resps ts saveOk rest (i + 1) g1
    ({ fields := address_data, geocoding := o.result } :: pr.1, pr.2)

/-- Externally visible operations on the cache store. -/
inductive CacheOp where
  | get (address : String)
  | set (address : String) (result : GeocodeResult) (now : String) (saveOk : Bool)
  | force_save (saveOk : Bool)

/-- Effect of one cache operation on the cache state. -/
def applyOp (md5hex : String → String) (batch_size : Nat) :
    CacheOp → CacheState → CacheState
  | .get a, s => (GeocodeCache.get md5hex a s).2
  | .set a r now ok, s => (GeocodeCache.set md5hex batch_size a r now ok s).2
  | .force_save ok, s => GeocodeCache.force_save ok s

/-- Effect of a sequence of cache operations, first to last. -/
def applyOps (md5hex : String → String) (batch_size : Nat) :
    List CacheOp → CacheState → CacheState
  | [], s => s
  | op :: ops, s => applyOps md5hex batch_size ops (applyOp md5hex batch_size op s)

/-- The dirty-flag invariant of the cache store. -/
def dirtyInv (s : CacheState) : Prop :=
  s.is_dirty = true ↔ 0 < s.dirty_count

/-- The address fields the formatter recognises, in output order. -/
def recognizedKeys : List String :=
  ["street_line_1", "city", "state", "zip", "country_code"]

/-- Modelled from the design document's words for the formatter contract:
the value of one recognised field after trimming (and upper-casing for the
country code), kept only when non-blank. -/
def specPart (r : AddressRecord) (key : String) (up : Bool) : Option String :=
  let t0 := pyStrip ((r.lookup key).getD "")
  let t := if up then pyUpper t0 else t0
  if t = "" then none else some t

/-- Modelled from the design document's words for the formatter contract:
concatenation, joined with a comma and space, in fixed order, of precisely
the recognised fields that are present and non-blank after trimming, the
country code upper-cased. -/
def spec_format (r : AddressRecord) : String :=
  String.intercalate ", "
    ((specPart r "street_line_1" false).toList ++ (specPart r "city" false).toList ++
     (specPart r "state" false).toList ++ (specPart r "zip" false).toList ++
     (specPart r "country_code" true).toList)

/-- The claimed end-to-end spacing property of a trace of attempts: each
next attempt starts no earlier than the previous attempt's finish plus the
configured delay. -/
def endToStartSpaced (delay : ℚ) (tr : List (ℚ × ℚ)) : Prop :=
  List.Chain' (fun a b => a.2 + delay ≤ b.1) tr

theorem trimmedPart_eq (v : String) :
    trimmedPart v = (if pyStrip v = "" then (none : Option String) else some (pyStrip v)).toList := by
  by_cases h : v = ""
  · subst h; decide
  · by_cases h2 : pyStrip v = "" <;> simp [trimmedPart, h, h2]

theorem upperPart_eq (v : String) :
    upperPart v =
      (if pyUpper (pyStrip v) = "" then (none : Option String)
       else some (pyUpper (pyStrip v))).toList := by
  by_cases h : v = ""
  · subst h; decide
  · by_cases h2 : pyUpper (pyStrip v) = "" <;> simp [upperPart, h, h2]

theorem getStr_cons_ne (k k' v : String) (r : AddressRecord) (h : k' ≠ k) :
    getStr ((k, v) :: r) k' = getStr r k' := by
  simp [getStr, List.lookup, beq_eq_false_iff_ne.mpr h]

theorem get_state (md5hex : String → String) (a : String) (s : CacheState) :
    (GeocodeCache.get md5hex a s).2 = s := by
  simp only [GeocodeCache.get]
  split <;> rfl

theorem set_snd_cache_data (md5hex : String → String) (batch_size : Nat)
    (a now : String) (res : GeocodeResult) (ok : Bool) (s : CacheState) :
    ((GeocodeCache.set md5hex batch_size a res now ok s).2).cache_data =
      GeocodeCache.insertEntry (GeocodeCache.generate_cache_key md5hex a)
        { res with timestamp := some now, cached := false } s.cache_data := by
  simp only [GeocodeCache.set, GeocodeCache.save_cache]
  split
  · split <;> rfl
  · rfl

theorem set_fst (md5hex : String → String) (batch_size : Nat)
    (a now : String) (res : GeocodeResult) (ok : Bool) (s : CacheState) :
    (GeocodeCache.set md5hex batch_size a res now ok s).1 =
      { res with timestamp := some now, cached := false } := by
  simp only [GeocodeCache.set]
  split <;> rfl

/-- Claim C8: for every address record, the formatter returns exactly the
concatenation, joined with ", ", in the fixed order street line, city,
state, postal code, uppercased country code, of precisely those recognised
fields that are present and non-blank after trimming; unknown or extra
fields are ignored, and the result is the empty string when no recognised
field yields non-blank content. -/
theorem format_address_spec (r : AddressRecord) :
    format_address r = spec_format r ∧
    (∀ k v, k ∉ recognizedKeys → format_address ((k, v) :: r) = format_address r) ∧
    ((∀ key ∈ recognizedKeys, pyStrip (getStr r key) = "") → format_address r = "") := by
  refine ⟨?_, ?_, ?_⟩
  · simp [format_address, spec_format, specPart, getStr, trimmedPart_eq, upperPart_eq]
  · intro k v hk
    simp only [recognizedKeys, List.mem_cons, List.not_mem_nil, or_false,
      not_or] at hk
    obtain ⟨h1, h2, h3, h4, h5⟩ := hk
    simp [format_address,
      getStr_cons_ne _ _ _ _ (Ne.symm h1), getStr_cons_ne _ _ _ _ (Ne.symm h2),
      getStr_cons_ne _ _ _ _ (Ne.symm h3), getStr_cons_ne _ _ _ _ (Ne.symm h4),
      getStr_cons_ne _ _ _ _ (Ne.symm h5)]
  · intro hblank
    have h1 := hblank "street_line_1" (by simp [recognizedKeys])
    have h2 := hblank "city" (by simp [recognizedKeys])
    have h3 := hblank "state" (by simp [recognizedKeys])
    have h4 := hblank "zip" (by simp [recognizedKeys])
    have h5 := hblank "country_code" (by simp [recognizedKeys])
    have h5u : pyUpper (pyStrip (getStr r "country_code")) = "" := by rw [h5]; decide
    simp [format_address, trimmedPart_eq, upperPart_eq, h1, h2, h3, h4, h5u]
    decide

/-- Witness for C8 at a concrete record with an unrecognised extra field. -/
theorem format_address_spec_witness :
    format_address [("city", " Boston "), ("foo", "x"), ("country_code", " us ")] =
      spec_format [("city", " Boston "), ("foo", "x"), ("country_code", " us ")] :=
  (format_address_spec [("city", " Boston "), ("foo", "x"), ("country_code", " us ")]).1

/-- Claim C2: cache round trip — storing a successful result and then looking
the same query up returns a present result with the stored coordinates and
address and with cached forced to true; and a lookup never changes the
cache state. -/
theorem cache_round_trip (md5hex : String → String) (batch_size : Nat)
    (address now : String) (result : GeocodeResult) (saveOk : Bool) (s : CacheState)
    (hsucc : result.error = none) :
    (∃ r, (GeocodeCache.get md5hex address
             (GeocodeCache.set md5hex batch_size address result now saveOk s).2).1 = some r ∧
       r.latitude = result.latitude ∧ r.longitude = result.longitude ∧
       r.formatted_address = result.formatted_address ∧ r.cached = true) ∧
    ∀ (a : String) (t : CacheState), (GeocodeCache.get md5hex a t).2 = t := by
  refine ⟨⟨{ result with timestamp := some now, cached := true }, ?_, rfl, rfl, rfl, rfl⟩,
    fun a t => get_state md5hex a t⟩
  simp only [GeocodeCache.get, set_snd_cache_data, GeocodeCache.insertEntry]
  simp [List.lookup]

/-- Witness for C2 at a concrete successful result and empty cache. -/
theorem cache_round_trip_witness :
    (∃ r, (GeocodeCache.get id "A"
             (GeocodeCache.set id 20 "A"
               { latitude := some 1, longitude := some 2, formatted_address := some "X" }
               "now" true (GeocodeCache.init [])).2).1 = some r ∧
       r.latitude = some 1 ∧ r.longitude = some 2 ∧
       r.formatted_address = some "X" ∧ r.cached = true) ∧
    ∀ (a : String) (t : CacheState), (GeocodeCache.get id a t).2 = t :=
  cache_round_trip id 20 "A" "now"
    { latitude := some 1, longitude := some 2, formatted_address := some "X" }
    true (GeocodeCache.init []) rfl

theorem applyOp_dirtyInv (md5hex : String → String) (batch_size : Nat)
    (op : CacheOp) (s : CacheState) (h : dirtyInv s) :
    dirtyInv (applyOp md5hex batch_size op s) := by
  cases op with
  | get a => rw [applyOp, get_state]; exact h
  | set a r now ok =>
    simp only [applyOp, GeocodeCache.set, GeocodeCache.save_cache, dirtyInv]
    split
    · split <;> simp
    · simp
  | force_save ok =>
    simp only [applyOp, GeocodeCache.force_save, GeocodeCache.save_cache]
    split
    · split
      · simp [dirtyInv]
      · exact h
    · exact h

theorem applyOps_dirtyInv (md5hex : String → String) (batch_size : Nat)
    (ops : List CacheOp) :
    ∀ s : CacheState, dirtyInv s → dirtyInv (applyOps md5hex batch_size ops s) := by
  induction ops with
  | nil => intro s h; exact h
  | cons op ops ih =>
    intro s h
    exact ih _ (applyOp_dirtyInv md5hex batch_size op s h)

/-- Claim C6: after construction and after every sequence of get, set and
force_save operations (the failed-save branch included), the dirty flag is
true exactly when the unsaved-entry counter is positive. -/
theorem cache_dirty_invariant (md5hex : String → String) (batch_size : Nat)
    (loaded : List (String × GeocodeResult)) (ops : List CacheOp) :
    dirtyInv (applyOps md5hex batch_size ops (GeocodeCache.init loaded)) :=
  applyOps_dirtyInv md5hex batch_size ops (GeocodeCache.init loaded)
    (by simp [dirtyInv, GeocodeCache.init])

/-- Claim C7: two consecutive force_save calls with no intervening set perform
at most one durable (successful) write; force_save is a no-op when the
dirty flag is clear and performs the persist-and-reset save when it is
set. -/
theorem force_save_idempotent (s : CacheState) (ok1 ok2 : Bool) :
    (GeocodeCache.force_save ok2 (GeocodeCache.force_save ok1 s)).write_count ≤
      s.write_count + 1 ∧
    (s.is_dirty = false → GeocodeCache.force_save ok1 s = s) ∧
    (s.is_dirty = true → GeocodeCache.force_save ok1 s = GeocodeCache.save_cache ok1 s) := by
  cases hd : s.is_dirty <;> cases ok1 <;> cases ok2 <;>
    simp_all [GeocodeCache.force_save, GeocodeCache.save_cache]

/-- Witness for C7 at a concrete dirty state with a failing then a
succeeding write. -/
theorem force_save_idempotent_witness :
    (GeocodeCache.force_save true (GeocodeCache.force_save false
      { cache_data := [], dirty_count := 1, is_dirty := true,
        persisted := [], write_count := 0 })).write_count ≤ 0 + 1 ∧
    (({ cache_data := [], dirty_count := 1, is_dirty := true,
        persisted := [], write_count := 0 } : CacheState).is_dirty = false →
      GeocodeCache.force_save false
        { cache_data := [], dirty_count := 1, is_dirty := true,
          persisted := [], write_count := 0 } =
        { cache_data := [], dirty_count := 1, is_dirty := true,
          persisted := [], write_count := 0 }) ∧
    (({ cache_data := [], dirty_count := 1, is_dirty := true,
        persisted := [], write_count := 0 } : CacheState).is_dirty = true →
      GeocodeCache.force_save false
        { cache_data := [], dirty_count := 1, is_dirty := true,
          persisted := [], write_count := 0 } =
        GeocodeCache.save_cache false
          { cache_data := [], dirty_count := 1, is_dirty := true,
            persisted := [], write_count := 0 }) :=
  force_save_idempotent
    { cache_data := [], dirty_count := 1, is_dirty := true,
      persisted := [], write_count := 0 } false true

/-- Claim C1: geocode_address calls the cache store only for an error-free
result; when the returned result carries an error the cache state is left
untouched, so a query that was absent from the cache is still absent
afterwards. -/
theorem geocode_address_never_caches_failures (md5hex : String → String)
    (batch_size max_retries : Nat) (retry_delay : ℚ) (resp : Nat → AttemptOutcome)
    (ts : String) (saveOk : Bool) (address_data : AddressRecord) (s : CacheState)
    (o : GeoOutcome)
    (ho : o = geocode_address md5hex batch_size max_retries retry_delay resp ts
            saveOk address_data s) :
    (o.storeCalled = true → o.result.error = none) ∧
    (o.result.error ≠ none →
      o.cache = s ∧
      ((GeocodeCache.get md5hex (format_address address_data) s).1 = none →
        (GeocodeCache.get md5hex (format_address address_data) o.cache).1 = none)) := by
  subst ho
  simp only [geocode_address]
  split
  · simp
  · rename_i hne
    have hst := get_state md5hex (format_address address_data) s
    cases hget : GeocodeCache.get md5hex (format_address address_data) s with
    | mk copt s1 =>
      have hs1 : s1 = s := by rw [hget] at hst; exact hst
      subst hs1
      cases copt with
      | some c => simp [hget]
      | none =>
        simp only [hget]
        split
        · rename_i herr
          constructor
          · intro _
            rw [set_fst]
            simpa using herr
          · intro habs
            exfalso
            apply habs
            rw [set_fst]
            simpa using herr
        · simp [hget]

/-- Witness for C1 at a record whose lookup fails with a not-found error
against an empty cache. -/
theorem geocode_address_never_caches_failures_witness :
    ((geocode_address id 20 3 2 (fun _ => AttemptOutcome.notFound) "t" true
        [("city", "X")] (GeocodeCache.init [])).storeCalled = true →
      (geocode_address id 20 3 2 (fun _ => AttemptOutcome.notFound) "t" true
        [("city", "X")] (GeocodeCache.init [])).result.error = none) ∧
    ((geocode_address id 20 3 2 (fun _ => AttemptOutcome.notFound) "t" true
        [("city", "X")] (GeocodeCache.init [])).result.error ≠ none →
      (geocode_address id 20 3 2 (fun _ => AttemptOutcome.notFound) "t" true
        [("city", "X")] (GeocodeCache.init [])).cache = GeocodeCache.init [] ∧
      ((GeocodeCache.get id (format_address [("city", "X")]) (GeocodeCache.init [])).1 = none →
        (GeocodeCache.get id (format_address [("city", "X")])
          (geocode_address id 20 3 2 (fun _ => AttemptOutcome.notFound) "t" true
            [("city", "X")] (GeocodeCache.init [])).cache).1 = none)) :=
  geocode_address_never_caches_failures id 20 3 2 (fun _ => AttemptOutcome.notFound)
    "t" true [("city", "X")] (GeocodeCache.init []) _ rfl

/-- Claim C5: a record whose formatted query is empty yields the error
"Empty or invalid address" with no cache lookup and no external call. -/
theorem geocode_address_empty_query (md5hex : String → String)
    (batch_size max_retries : Nat) (retry_delay : ℚ) (resp : Nat → AttemptOutcome)
    (ts : String) (saveOk : Bool) (address_data : AddressRecord) (s : CacheState)
    (hempty : pyStrip (format_address address_data) = "")
    (o : GeoOutcome)
    (ho : o = geocode_address md5hex batch_size max_retries retry_delay resp ts
            saveOk address_data s) :
    o.result.error = some "Empty or invalid address" ∧
    o.cacheLookup = false ∧ o.externalCalled = false := by
  subst ho
  simp [geocode_address, hempty]

/-- Witness for C5 at a record with only blank recognised fields. -/
theorem geocode_address_empty_query_witness :
    (geocode_address id 20 3 2 (fun _ => AttemptOutcome.notFound) "t" true
      [("city", "  "), ("street_line_1", "")] (GeocodeCache.init [])).result.error =
        some "Empty or invalid address" ∧
    (geocode_address id 20 3 2 (fun _ => AttemptOutcome.notFound) "t" true
      [("city", "  "), ("street_line_1", "")] (GeocodeCache.init [])).cacheLookup = false ∧
    (geocode_address id 20 3 2 (fun _ => AttemptOutcome.notFound) "t" true
      [("city", "  "), ("street_line_1", "")] (GeocodeCache.init [])).externalCalled = false :=
  geocode_address_empty_query id 20 3 2 (fun _ => AttemptOutcome.notFound) "t" true
    [("city", "  "), ("street_line_1", "")] (GeocodeCache.init []) (by decide) _ rfl

theorem retryFrom_attempts_le (mr : Nat) (d : ℚ) (resp : Nat → AttemptOutcome)
    (ts : String) :
    ∀ (fuel attempt : Nat), (retryFrom mr d resp ts attempt fuel).attemptsMade ≤ fuel := by
  intro fuel
  induction fuel with
  | zero => intro attempt; simp [retryFrom]
  | succ f ih =>
    intro attempt
    cases h : resp attempt <;> simp only [retryFrom, h]
    · simp
    · simp
    · simp
    · split
      · have := ih (attempt + 1)
        simp only []
        omega
      · simp
    · split
      · have := ih (attempt + 1)
        simp only []
        omega
      · simp
    · simp

theorem retryFrom_all_transient (mr : Nat) (d : ℚ) (resp : Nat → AttemptOutcome)
    (ts : String) (hall : ∀ i, (resp i).isTransient = true) :
    ∀ (fuel attempt : Nat), attempt + fuel = mr → 0 < fuel →
      retryFrom mr d resp ts attempt fuel =
        { result := { error := some ("Failed after " ++ toString mr ++ " attempts: " ++
                        (resp (mr - 1)).excMsg), timestamp := some ts },
          attemptsMade := fuel,
          sleeps := (List.range' (attempt + 1) (fuel - 1)).map (fun j => d * (j : ℚ)),
          requestCountDelta := 0 } := by
  intro fuel
  induction fuel with
  | zero => intro attempt heq hpos; omega
  | succ f ih =>
    intro attempt heq hpos
    have htr := hall attempt
    cases h : resp attempt <;> rw [h] at htr <;>
      simp only [AttemptOutcome.isTransient] at htr <;>
      try exact absurd htr (by decide)
    case timedOut e =>
      rw [retryFrom, h]
      dsimp only
      cases f with
      | zero =>
        have h2 : resp (mr - 1) = AttemptOutcome.timedOut e := by
          rw [show mr - 1 = attempt by omega, h]
        rw [if_neg (by omega)]
        simp [h2, AttemptOutcome.excMsg]
      | succ f2 =>
        rw [if_pos (by omega), ih (attempt + 1) (by omega) (by omega)]
        simp [RetryRun.mk.injEq, List.range'_succ, Nat.cast_add, Nat.cast_one]
    case serviceError e =>
      rw [retryFrom, h]
      dsimp only
      cases f with
      | zero =>
        have h2 : resp (mr - 1) = AttemptOutcome.serviceError e := by
          rw [show mr - 1 = attempt by omega, h]
        rw [if_neg (by omega)]
        simp [h2, AttemptOutcome.excMsg]
      | succ f2 =>
        rw [if_pos (by omega), ih (attempt + 1) (by omega) (by omega)]
        simp [RetryRun.mk.injEq, List.range'_succ, Nat.cast_add, Nat.cast_one]

/-- Claim C3: the retry client issues at most max_retries external attempts and
always produces a result; on a run of transient failures it performs
exactly max_retries attempts with backoff sleeps retry_delay × 1,
retry_delay × 2, … between them, and returns an error naming the attempt
count and the message of the last failure. -/
theorem retry_client_bounded_backoff (max_retries : Nat) (retry_delay : ℚ)
    (resp : Nat → AttemptOutcome) (ts : String) (hpos : 0 < max_retries) :
    (∀ resp2 : Nat → AttemptOutcome,
      (geocode_with_retry max_retries retry_delay resp2 ts).attemptsMade ≤ max_retries) ∧
    ((∀ i, (resp i).isTransient = true) →
      (geocode_with_retry max_retries retry_delay resp ts).attemptsMade = max_retries ∧
      (geocode_with_retry max_retries retry_delay resp ts).sleeps =
        (List.range' 1 (max_retries - 1)).map (fun j => retry_delay * (j : ℚ)) ∧
      (geocode_with_retry max_retries retry_delay resp ts).result.error =
        some ("Failed after " ++ toString max_retries ++ " attempts: " ++
              (resp (max_retries - 1)).excMsg)) := by
  constructor
  · intro resp2
    exact retryFrom_attempts_le max_retries retry_delay resp2 ts max_retries 0
  · intro hall
    rw [geocode_with_retry,
      retryFrom_all_transient max_retries retry_delay resp ts hall max_retries 0
        (by omega) hpos]
    exact ⟨rfl, rfl, rfl⟩

/-- Witness for C3 with the default configuration (3 attempts, base delay
2.0) and an oracle that always times out: sleeps 2.0 then 4.0. -/
theorem retry_client_bounded_backoff_witness :
    0 < 3 ∧
    ((∀ resp2 : Nat → AttemptOutcome,
      (geocode_with_retry 3 2 resp2 "t").attemptsMade ≤ 3) ∧
    ((∀ i : Nat, ((fun _ : Nat => AttemptOutcome.timedOut "boom") i).isTransient = true) →
      (geocode_with_retry 3 2 (fun _ : Nat => AttemptOutcome.timedOut "boom")
        "t").attemptsMade = 3 ∧
      (geocode_with_retry 3 2 (fun _ : Nat => AttemptOutcome.timedOut "boom") "t").sleeps =
        (List.range' 1 (3 - 1)).map (fun j => 2 * (j : ℚ)) ∧
      (geocode_with_retry 3 2 (fun _ : Nat => AttemptOutcome.timedOut "boom")
        "t").result.error =
        some ("Failed after " ++ toString 3 ++ " attempts: " ++
              ((fun _ : Nat => AttemptOutcome.timedOut "boom") (3 - 1)).excMsg))) :=
  ⟨by decide,
   retry_client_bounded_backoff 3 2 (fun _ : Nat => AttemptOutcome.timedOut "boom") "t"
     (by decide)⟩

theorem retryFrom_request_count (mr : Nat) (d : ℚ) (resp : Nat → AttemptOutcome)
    (ts : String) :
    ∀ (fuel attempt : Nat),
      (retryFrom mr d resp ts attempt fuel).requestCountDelta =
        (List.range' attempt (retryFrom mr d resp ts attempt fuel).attemptsMade).countP
          (fun i => (resp i).isResponse) := by
  intro fuel
  induction fuel with
  | zero => intro attempt; simp [retryFrom]
  | succ f ih =>
    intro attempt
    cases h : resp attempt
    case found lat lon addr =>
      rw [retryFrom, h]
      dsimp only
      simp [h, AttemptOutcome.isResponse, List.range'_one]
    case notFound =>
      rw [retryFrom, h]
      dsimp only
      simp [h, AttemptOutcome.isResponse, List.range'_one]
    case quotaExceeded =>
      rw [retryFrom, h]
      dsimp only
      simp [h, AttemptOutcome.isResponse, List.range'_one]
    case timedOut e =>
      rw [retryFrom, h]
      dsimp only
      split
      · simp only [List.range'_succ, List.countP_cons]
        rw [ih (attempt + 1)]
        simp [h, AttemptOutcome.isResponse]
      · simp [h, AttemptOutcome.isResponse, List.range'_one]
    case serviceError e =>
      rw [retryFrom, h]
      dsimp only
      split
      · simp only [List.range'_succ, List.countP_cons]
        rw [ih (attempt + 1)]
        simp [h, AttemptOutcome.isResponse]
      · simp [h, AttemptOutcome.isResponse, List.range'_one]
    case unexpected e =>
      rw [retryFrom, h]
      dsimp only
      simp [h, AttemptOutcome.isResponse, List.range'_one]

/-- Claim C10: the request counter is bumped exactly on the attempts whose
geocode call returns a provider response (a location or not-found); an
attempt ending in an exception contributes nothing. -/
theorem request_count_counts_responses (max_retries : Nat) (retry_delay : ℚ)
    (resp : Nat → AttemptOutcome) (ts : String) :
    (geocode_with_retry max_retries retry_delay resp ts).requestCountDelta =
      (List.range (geocode_with_retry max_retries retry_delay resp ts).attemptsMade).countP
        (fun i => (resp i).isResponse) := by
  rw [List.range_eq_range']
  exact retryFrom_request_count max_retries retry_delay resp ts max_retries 0

/-- Counterexample to C4 as stated: with the default 1.1 delay, an attempt
that itself takes 0.5 time units is followed by the next attempt only 0.6
time units after it ends, because _rate_limit records last_request_time
before the geocode call is issued, not after it returns. -/
theorem rate_limit_end_to_start_refuted :
    ¬ endToStartSpaced REQUEST_DELAY
        (runAttempts REQUEST_DELAY ⟨100, 0⟩ [(0, 1/2), (0, 0)]) := by
  have hrun : runAttempts REQUEST_DELAY ⟨100, 0⟩ [(0, 1/2), (0, 0)] =
      [(100, 201/2), (1011/10, 1011/10)] := by
    norm_num [runAttempts, rate_limit, REQUEST_DELAY]
  unfold endToStartSpaced
  rw [hrun]
  intro hch
  rw [List.chain'_cons] at hch
  have hgap := hch.1
  norm_num [REQUEST_DELAY] at hgap

theorem rate_limit_now_ge (delay : ℚ) (c : ClientClock) :
    c.last_request_time + delay ≤ (rate_limit delay c).now := by
  simp only [rate_limit]
  split <;> linarith

/-- Claim C4 amended: consecutive attempt starts issued by one client instance
are at least the configured delay apart (the spacing is measured from the
recorded last_request_time, i.e. the start of the previous attempt), and
when less than the delay has elapsed the client sleeps exactly the
remainder, resuming at last_request_time + delay. -/
theorem rate_limit_start_to_start (delay : ℚ) (c : ClientClock)
    (events : List (ℚ × ℚ)) :
    List.Chain' (fun a b => a.1 + delay ≤ b.1) (runAttempts delay c events) ∧
    ∀ d : ClientClock, d.now - d.last_request_time < delay →
      (rate_limit delay d).now = d.last_request_time + delay := by
  constructor
  · induction events generalizing c with
    | nil => simp [runAttempts]
    | cons e rest ih =>
      obtain ⟨idle, dur⟩ := e
      rw [runAttempts]
      rw [List.chain'_cons']
      refine ⟨?_, ih _⟩
      intro b hb
      cases rest with
      | nil => simp [runAttempts] at hb
      | cons e2 rest2 =>
        obtain ⟨idle2, dur2⟩ := e2
        rw [runAttempts, List.head?_cons, Option.mem_def, Option.some_inj] at hb
        subst hb
        exact rate_limit_now_ge delay _
  · intro d hd
    simp only [rate_limit]
    rw [if_pos hd]
    ring

/-- Witness for C4's amended theorem at the counterexample trace. -/
theorem rate_limit_start_to_start_witness :
    List.Chain' (fun a b => a.1 + REQUEST_DELAY ≤ b.1)
      (runAttempts REQUEST_DELAY ⟨100, 0⟩ [(0, 1/2), (0, 0)]) ∧
    ∀ d : ClientClock, d.now - d.last_request_time < REQUEST_DELAY →
      (rate_limit REQUEST_DELAY d).now = d.last_request_time + REQUEST_DELAY :=
  rate_limit_start_to_start REQUEST_DELAY ⟨100, 0⟩ [(0, 1/2), (0, 0)]

/-- Claim C9: processing a batch yields one output per input, in input order,
each carrying the original record's fields unchanged alongside the added
geocoding result; the inputs themselves are returned intact. -/
theorem process_addresses_preserves_records (md5hex : String → String)
    (batch_size max_retries : Nat) (retry_delay : ℚ)
    (resps : Nat → Nat → AttemptOutcome) (ts : String) (saveOk : Bool)
    (addresses : List AddressRecord) (i : Nat) (g : GeocoderState) :
    (process_addresses md5hex batch_size max_retries retry_delay resps ts saveOk
        addresses i g).1.map EnrichedRecord.fields = addresses ∧
    (process_addresses md5hex batch_size max_retries retry_delay resps ts saveOk
        addresses i g).1.length = addresses.length := by
  induction addresses generalizing i g with
  | nil => simp [process_addresses]
  | cons a rest ih =>
    rw [process_addresses]
    obtain ⟨ih1, ih2⟩ := ih (i + 1)
      { cache := (geocode_address md5hex batch_size max_retries retry_delay
          (resps i) ts saveOk a g.cache).cache,
        request_count := g.request_count + (geocode_address md5hex batch_size
          max_retries retry_delay (resps i) ts saveOk a g.cache).requestCountDelta }
    constructor
    · simp only [List.map_cons]
      rw [ih1]
    · simp only [List.length_cons]
      rw [ih2]

end Geocoding
